import Mathlib

/-!
Shallow embedding of the mailing dispatch core of the SendingMessages
repository: the status resolver (`Mailing.get_dynamic_status` in
`mailings/models.py`), the batch send command
(`mailings/management/commands/send_mailings.py`), the manual send view
(`send_mailing` in `mailings/views.py`) and the model validation
(`Mailing.clean` / `Mailing.save`, `toggle_mailing_active`).

Timestamps are modelled as `Int`. The delivery capability is a function
`Recipient → Except String Bool`: `.ok b` models `send_email` returning the
value `b`, `.error e` models `send_mail` raising an exception whose textual
description (`str(e)`) is `e`. Side effects (created `MailingAttempt` rows,
the set of recipients actually handed to the transport) are returned
explicitly.
-/

/-- A recipient row (`Recipient` model): only the fields the dispatch logic
reads. -/
structure Recipient where
  id : Nat
  email : String
deriving Repr, DecidableEq

/-- A message row (`Message` model). -/
structure Message where
  subject : String
  body : String
deriving Repr, DecidableEq

/-- The three lifecycle states of `Mailing.STATUS_CHOICES`. -/
inductive MailingStatus where
  | created
  | started
  | completed
deriving Repr, DecidableEq

/-- A mailing row (`Mailing` model): scheduling window, active flag, message,
recipient set and owner (the owner's email, `none` for no owner). -/
structure Mailing where
  id : Nat
  start_time : Int
  end_time : Int
  is_active : Bool
  message : Message
  recipients : List Recipient
  owner : Option String
deriving Repr, DecidableEq

/-- An attempt row (`MailingAttempt` model). -/
structure MailingAttempt where
  status : String
  server_response : String
  mailing_id : Nat
  recipient_id : Nat
deriving Repr, DecidableEq

/-- `Mailing.get_dynamic_status` (models.py lines 119-137), the computation
performed on a cache miss, as a pure function of the clock and the stored
fields: `created` if `now < start_time`, else `started` if
`start_time <= now <= end_time and is_active`, else `completed`. -/
def get_dynamic_status (now start_time end_time : Int) (is_active : Bool) :
    MailingStatus :=
  if now < start_time then .created
  else if start_time ≤ now ∧ now ≤ end_time ∧ is_active = true then .started
  else .completed

/-- The success record written by `Command.create_attempt` for a delivered
recipient (send_mailings.py line 151). -/
def successRec (m : Mailing) (r : Recipient) : MailingAttempt :=
  ⟨"success", "Письмо успешно отправлено", m.id, r.id⟩

/-- The failure record written by `Command.create_attempt` when `send_email`
raised `e` (send_mailings.py line 156). -/
def failedRec (m : Mailing) (r : Recipient) (e : String) : MailingAttempt :=
  ⟨"failed", e, m.id, r.id⟩

/-- Accumulated state of the per-recipient loop: the two counters, the
attempt rows created, and the recipients actually handed to the transport. -/
structure LoopState where
  success_count : Nat
  failed_count : Nat
  records : List MailingAttempt
  visited : List Recipient
deriving Repr, DecidableEq

/-- The per-recipient loop of `Command.process_mailing` (send_mailings.py
lines 147-157), recipient by recipient: on `.ok true` increment
`success_count` and create a success record; on `.ok false` (a falsy return
from `send_email`) increment `failed_count` and create no record; on
`.error e` (an exception) increment `failed_count` and create a failed
record with `str(e)`. -/
def sendLoop (m : Mailing) (deliver : Recipient → Except String Bool) :
    List Recipient → LoopState
  | [] => ⟨0, 0, [], []⟩
  | r :: rs =>
    let s := sendLoop m deliver rs
    match deliver r with
    | .ok true => ⟨s.success_count + 1, s.failed_count,
        successRec m r :: s.records, r :: s.visited⟩
    | .ok false => ⟨s.success_count, s.failed_count + 1,
        s.records, r :: s.visited⟩
    | .error e => ⟨s.success_count, s.failed_count + 1,
        failedRec m r e :: s.records, r :: s.visited⟩

/-- The dict returned by `Command.process_mailing` together with its side
effects: the `success`/`failed`/`skipped` flags, the two counters, the
attempt rows created and the recipients handed to the transport. -/
structure ProcessOutcome where
  success : Bool
  failed : Bool
  skipped : Bool
  success_count : Nat
  failed_count : Nat
  records : List MailingAttempt
  visited : List Recipient
deriving Repr, DecidableEq

/-- `Command.process_mailing` (send_mailings.py lines 115-167): skip when
`not force and dynamic_status != started`; skip when the recipient set is
empty; in dry-run mode return success without delivering or writing
records; otherwise run the per-recipient loop and report
`success = success_count > 0`, `failed = failed_count > 0`. -/
def process_mailing (m : Mailing) (force dry_run : Bool) (now : Int)
    (deliver : Recipient → Except String Bool) : ProcessOutcome :=
  let dynamic_status :=
    get_dynamic_status now m.start_time m.end_time m.is_active
  if force = false ∧ dynamic_status ≠ .started then
    ⟨false, false, true, 0, 0, [], []⟩
  else if m.recipients.isEmpty then
    ⟨false, false, true, 0, 0, [], []⟩
  else if dry_run then
    ⟨true, false, false, 0, 0, [], []⟩
  else
    let s := sendLoop m deliver m.recipients
    ⟨decide (0 < s.success_count), decide (0 < s.failed_count), false,
      s.success_count, s.failed_count, s.records, s.visited⟩

/-- `Command.get_mailings_queryset` (send_mailings.py lines 77-113): with a
`--mailing-id` filter only by id; otherwise with `--force` filter by
`is_active`, else by `start_time <= now <= end_time and is_active`; then,
with `--user-email`, restrict to that owner, or return the empty queryset
when no user has that email. `users` is the list of existing user emails. -/
def get_mailings_queryset (db : List Mailing) (users : List String)
    (mailing_id : Option Nat) (user_email : Option String)
    (force : Bool) (now : Int) : List Mailing :=
  let mailings :=
    match mailing_id with
    | some i => db.filter (fun m => m.id == i)
    | none =>
      if force then db.filter (fun m => m.is_active)
      else db.filter (fun m =>
        decide (m.start_time ≤ now) && decide (now ≤ m.end_time) && m.is_active)
  match user_email with
  | none => mailings
  | some e =>
    if users.contains e then mailings.filter (fun m => m.owner == some e)
    else []

/-- The summary dict accumulated by `Command.handle` (send_mailings.py lines
60-72) and printed by `Command.print_summary`. -/
structure Summary where
  total : Nat
  success : Nat
  failed : Nat
  skipped : Nat
deriving Repr, DecidableEq

/-- The per-mailing accumulation loop of `Command.handle` (send_mailings.py
lines 67-72): one `process_mailing` per selected mailing, incrementing
`total` always and `success`/`failed`/`skipped` when the corresponding flag
is set, collecting all attempt rows created. -/
def tally (force dry_run : Bool) (now : Int)
    (deliver : Recipient → Except String Bool) :
    List Mailing → Summary × List MailingAttempt
  | [] => (⟨0, 0, 0, 0⟩, [])
  | m :: ms =>
    let rest := tally force dry_run now deliver ms
    let o := process_mailing m force dry_run now deliver
    (⟨rest.1.total + 1,
      rest.1.success + (if o.success then 1 else 0),
      rest.1.failed + (if o.failed then 1 else 0),
      rest.1.skipped + (if o.skipped then 1 else 0)⟩,
     o.records ++ rest.2)

/-- `Command.handle` (send_mailings.py lines 39-75): build the queryset; if
it is empty print a warning and return early WITHOUT the summary (modelled
as `none`); otherwise process every mailing and print the summary (modelled
as `some`). The attempt rows created are returned alongside. -/
def handle (db : List Mailing) (users : List String)
    (mailing_id : Option Nat) (user_email : Option String)
    (force dry_run : Bool) (now : Int)
    (deliver : Recipient → Except String Bool) :
    Option Summary × List MailingAttempt :=
  let mailings := get_mailings_queryset db users mailing_id user_email force now
  if mailings.isEmpty then (none, [])
  else
    let out := tally force dry_run now deliver mailings
    (some out.1, out.2)

/-- The per-recipient loop of the manual send view `send_mailing`
(views.py lines 421-443): every outcome of `send_mail`, success or
exception, produces exactly one attempt row. The returned value of
`send_mail` is not inspected there, so any `.ok` value is a success. -/
def viewSendLoop (m : Mailing) (deliver : Recipient → Except String Bool) :
    List Recipient → LoopState
  | [] => ⟨0, 0, [], []⟩
  | r :: rs =>
    let s := viewSendLoop m deliver rs
    match deliver r with
    | .ok _ => ⟨s.success_count + 1, s.failed_count,
        successRec m r :: s.records, r :: s.visited⟩
    | .error e => ⟨s.success_count, s.failed_count + 1,
        failedRec m r e :: s.records, r :: s.visited⟩

/-- `Mailing.clean` (models.py lines 100-107): reject `start_time >=
end_time`, then reject `start_time < now`. -/
def mailing_clean (now start_time end_time : Int) : Except String Unit :=
  if start_time ≥ end_time then
    .error "Дата начала должна быть раньше даты окончания"
  else if start_time < now then
    .error "Дата начала не может быть в прошлом"
  else .ok ()

/-- `Mailing.save` (models.py lines 109-117): every save, creation or
update, runs `full_clean` (hence `clean`) first; the row is persisted only
when validation passes. -/
def mailing_save (now : Int) (m : Mailing) : Except String Mailing :=
  match mailing_clean now m.start_time m.end_time with
  | .error e => .error e
  | .ok _ => .ok m

/-- `toggle_mailing_active` (views.py lines 453-470), for an authorized
caller: flip `is_active` and save the mailing (which re-runs validation). -/
def toggle_mailing_active (now : Int) (m : Mailing) : Except String Mailing :=
  mailing_save now { m with is_active := !m.is_active }

/-- The record the command's loop creates for recipient `r`, if any:
`some` success row on `.ok true`, nothing on `.ok false`, `some` failed row
on `.error`. -/
def recordOf (m : Mailing) (deliver : Recipient → Except String Bool)
    (r : Recipient) : Option MailingAttempt :=
  match deliver r with
  | .ok true => some (successRec m r)
  | .ok false => none
  | .error e => some (failedRec m r e)

/-- Sample data: recipients, message and mailings used in concrete runs. -/
def r0 : Recipient := ⟨0, "a@example.com"⟩

def r1 : Recipient := ⟨1, "b@example.com"⟩

def msg0 : Message := ⟨"Greetings", "Hello there"⟩

def m0 : Mailing := ⟨0, 0, 10, true, msg0, [r0], none⟩

def m1 : Mailing := ⟨1, 0, 10, true, msg0, [r0, r1], none⟩

def m2 : Mailing := ⟨2, 0, 10, false, msg0, [r0], none⟩

def m3 : Mailing := ⟨3, 0, 10, true, msg0, [r0], none⟩

def deliverOk : Recipient → Except String Bool := fun _ => .ok true

def deliverFalse : Recipient → Except String Bool := fun _ => .ok false

def deliverMixed : Recipient → Except String Bool :=
  fun r => if r.id == 0 then .ok true else .error "SMTP connection refused"

/-- Whether a delivery outcome is a falsy return value from `send_email`
(the `else` branch of send_mailings.py line 152). -/
def isFalsy : Except String Bool → Bool
  | .ok false => true
  | _ => false

@[simp]
theorem isFalsy_ok (b : Bool) : isFalsy (.ok b) = !b := by cases b <;> rfl

@[simp]
theorem isFalsy_error (e : String) : isFalsy (.error e) = false := rfl

theorem isEmpty_false_of_ne_nil {α : Type} {l : List α} (h : l ≠ []) :
    l.isEmpty = false := by
  cases l with
  | nil => exact absurd rfl h
  | cons a t => rfl

theorem sendLoop_visited (m : Mailing) (deliver : Recipient → Except String Bool)
    (rs : List Recipient) : (sendLoop m deliver rs).visited = rs := by
  induction rs with
  | nil => rfl
  | cons r rs ih =>
    simp only [sendLoop]
    cases h : deliver r with
    | ok b => cases b <;> simp [ih]
    | error e => simp [ih]

theorem sendLoop_counts (m : Mailing) (deliver : Recipient → Except String Bool)
    (rs : List Recipient) :
    (sendLoop m deliver rs).success_count + (sendLoop m deliver rs).failed_count =
      rs.length := by
  induction rs with
  | nil => rfl
  | cons r rs ih =>
    simp only [sendLoop]
    cases h : deliver r with
    | ok b => cases b <;> simp <;> omega
    | error e => simp; omega

theorem sendLoop_records (m : Mailing) (deliver : Recipient → Except String Bool)
    (rs : List Recipient) :
    (sendLoop m deliver rs).records = rs.filterMap (recordOf m deliver) := by
  induction rs with
  | nil => rfl
  | cons r rs ih =>
    simp only [sendLoop, List.filterMap]
    cases h : deliver r with
    | ok b => cases b <;> simp [recordOf, h, ih]
    | error e => simp [recordOf, h, ih]

theorem sendLoop_records_length (m : Mailing)
    (deliver : Recipient → Except String Bool) (rs : List Recipient) :
    (sendLoop m deliver rs).records.length +
      rs.countP (fun r => isFalsy (deliver r)) = rs.length := by
  induction rs with
  | nil => rfl
  | cons r rs ih =>
    simp only [sendLoop, List.countP_cons]
    cases h : deliver r with
    | ok b => cases b <;> simp [h] <;> omega
    | error e => simp [h]; omega

theorem viewSendLoop_counts (m : Mailing)
    (deliver : Recipient → Except String Bool) (rs : List Recipient) :
    (viewSendLoop m deliver rs).success_count +
      (viewSendLoop m deliver rs).failed_count = rs.length := by
  induction rs with
  | nil => rfl
  | cons r rs ih =>
    simp only [viewSendLoop]
    cases h : deliver r with
    | ok b => simp; omega
    | error e => simp; omega

theorem viewSendLoop_records_length (m : Mailing)
    (deliver : Recipient → Except String Bool) (rs : List Recipient) :
    (viewSendLoop m deliver rs).records.length = rs.length := by
  induction rs with
  | nil => rfl
  | cons r rs ih =>
    simp only [viewSendLoop]
    cases h : deliver r with
    | ok b => simp [ih]
    | error e => simp [ih]

theorem process_mailing_eq_run (m : Mailing) (force : Bool) (now : Int)
    (deliver : Recipient → Except String Bool)
    (hs : force = true ∨
      get_dynamic_status now m.start_time m.end_time m.is_active = .started)
    (hne : m.recipients ≠ []) :
    process_mailing m force false now deliver =
      ⟨decide (0 < (sendLoop m deliver m.recipients).success_count),
       decide (0 < (sendLoop m deliver m.recipients).failed_count), false,
       (sendLoop m deliver m.recipients).success_count,
       (sendLoop m deliver m.recipients).failed_count,
       (sendLoop m deliver m.recipients).records,
       (sendLoop m deliver m.recipients).visited⟩ := by
  have h1 : ¬(force = false ∧
      get_dynamic_status now m.start_time m.end_time m.is_active ≠ .started) := by
    rcases hs with h | h <;> simp [h]
  have h2 : m.recipients.isEmpty = false := isEmpty_false_of_ne_nil hne
  simp [process_mailing, h1, h2]

/-- C2: the status resolver maps every (now, start_time, end_time, is_active)
to exactly one of created/started/completed by the ordered rules: created if
now < start_time; started if start_time <= now <= end_time and is_active
(boundaries included, since the comparisons are non-strict); completed
otherwise — in particular an inactive campaign inside its window resolves to
completed. -/
theorem resolve_status_rules (now s e : Int) (a : Bool) :
    (now < s → get_dynamic_status now s e a = .created) ∧
    (s ≤ now → now ≤ e → a = true → get_dynamic_status now s e a = .started) ∧
    (¬now < s → ¬(s ≤ now ∧ now ≤ e ∧ a = true) →
      get_dynamic_status now s e a = .completed) ∧
    (s ≤ now → now ≤ e → a = false → get_dynamic_status now s e a = .completed) := by
  refine ⟨fun h => ?_, fun h1 h2 h3 => ?_, fun h1 h2 => ?_, fun h1 h2 h3 => ?_⟩
  · simp [get_dynamic_status, h]
  · have hn : ¬now < s := by omega
    unfold get_dynamic_status
    rw [if_neg hn, if_pos ⟨h1, h2, h3⟩]
  · unfold get_dynamic_status
    rw [if_neg h1, if_neg h2]
  · have hn : ¬now < s := by omega
    have hc : ¬(s ≤ now ∧ now ≤ e ∧ a = true) := by simp [h3]
    unfold get_dynamic_status
    rw [if_neg hn, if_neg hc]

/-- Witness for the C2 theorem: the inactive mailing m2 inside its window
(now = 5, window 0..10) resolves to completed. -/
theorem resolve_status_rules_witness :
    get_dynamic_status 5 0 10 false = .completed :=
  (resolve_status_rules 5 0 10 false).2.2.2 (by decide) (by decide) rfl

/-- C4: eligibility selection of the batch sender (no --mailing-id, no
--user-email): with force it selects exactly the mailings with is_active;
without force exactly those with start_time <= now <= end_time and
is_active, evaluated against the stored fields. -/
theorem eligibility_selection_spec (db : List Mailing) (now : Int) (m : Mailing) :
    (m ∈ get_mailings_queryset db [] none none true now ↔
      m ∈ db ∧ m.is_active = true) ∧
    (m ∈ get_mailings_queryset db [] none none false now ↔
      m ∈ db ∧ (m.start_time ≤ now ∧ now ≤ m.end_time ∧ m.is_active = true)) := by
  constructor
  · simp [get_mailings_queryset, List.mem_filter]
  · simp [get_mailings_queryset, List.mem_filter, and_assoc]

/-- Witness for the C4 theorem: m0 (active, window 0..10) is selected at
now = 5 without force, and the inactive m2 is not. -/
theorem eligibility_selection_spec_witness :
    m0 ∈ get_mailings_queryset [m0, m2] [] none none false 5 ∧
    ¬m2 ∈ get_mailings_queryset [m0, m2] [] none none false 5 :=
  ⟨(eligibility_selection_spec [m0, m2] 5 m0).2.mpr
      ⟨by simp, by decide, by decide, rfl⟩,
   fun h => by
    have := ((eligibility_selection_spec [m0, m2] 5 m2).2.mp h).2.2.2
    exact absurd this (by decide)⟩

/-- C5: a dispatch requested without force on a mailing whose resolved
status is not started is skipped before the delivery loop: flags report
skipped (not failed), no attempt records are written, and no recipient is
handed to the transport. -/
theorem precondition_skip (m : Mailing) (dry_run : Bool) (now : Int)
    (deliver : Recipient → Except String Bool)
    (h : get_dynamic_status now m.start_time m.end_time m.is_active ≠ .started) :
    process_mailing m false dry_run now deliver =
      ⟨false, false, true, 0, 0, [], []⟩ := by
  simp [process_mailing, h]

/-- Witness for the C5 theorem: the inactive mailing m2 at now = 5 resolves
to completed, so its dispatch is skipped with no records and no deliveries. -/
theorem precondition_skip_witness :
    process_mailing m2 false false 5 deliverOk =
      ⟨false, false, true, 0, 0, [], []⟩ :=
  precondition_skip m2 false 5 deliverOk (by decide)

/-- C1 counterexample: dispatching m0 (one recipient, active, inside its
window at now = 5) with a delivery function returning an error value (a
falsy return, not an exception): success_count + failed_count = 1 = N, but
zero attempt records are created instead of N = 1 — the claim's record-count
part fails for error-value returns. -/
theorem dispatch_record_count_counterexample :
    (process_mailing m0 false false 5 deliverFalse).success_count +
        (process_mailing m0 false false 5 deliverFalse).failed_count = 1 ∧
    (process_mailing m0 false false 5 deliverFalse).records = [] :=
  ⟨rfl, rfl⟩

/-- C1 (amended): for a started mailing with N recipients,
success_count + failed_count = N however the deliveries fail; the batch
command creates exactly one record per recipient whose delivery succeeds
(outcome success, confirmation text) or raises (outcome failed, the error's
text), and none for a recipient whose deliver_fn returns an error value, so
its record count is N minus the number of error-value returns (and exactly
N when no delivery returns an error value); the manual send view creates
exactly N records. -/
theorem dispatch_counts_and_records (m : Mailing) (now : Int)
    (deliver : Recipient → Except String Bool)
    (hs : get_dynamic_status now m.start_time m.end_time m.is_active = .started)
    (hne : m.recipients ≠ []) :
    (process_mailing m false false now deliver).success_count +
        (process_mailing m false false now deliver).failed_count =
      m.recipients.length ∧
    (process_mailing m false false now deliver).records =
      m.recipients.filterMap (recordOf m deliver) ∧
    (process_mailing m false false now deliver).records.length +
        m.recipients.countP (fun r => isFalsy (deliver r)) =
      m.recipients.length ∧
    ((∀ r ∈ m.recipients, isFalsy (deliver r) = false) →
      (process_mailing m false false now deliver).records.length =
        m.recipients.length) ∧
    (viewSendLoop m deliver m.recipients).success_count +
        (viewSendLoop m deliver m.recipients).failed_count =
      m.recipients.length ∧
    (viewSendLoop m deliver m.recipients).records.length =
      m.recipients.length := by
  rw [process_mailing_eq_run m false now deliver (Or.inr hs) hne]
  refine ⟨sendLoop_counts m deliver m.recipients,
    sendLoop_records m deliver m.recipients, ?_, ?_,
    viewSendLoop_counts m deliver m.recipients,
    viewSendLoop_records_length m deliver m.recipients⟩
  · exact sendLoop_records_length m deliver m.recipients
  · intro hall
    have hz : m.recipients.countP (fun r => isFalsy (deliver r)) = 0 := by
      simp [List.countP_eq_zero]
      intro r hr
      simpa using hall r hr
    have := sendLoop_records_length m deliver m.recipients
    show (sendLoop m deliver m.recipients).records.length = m.recipients.length
    omega

/-- Witness for the C1 amended theorem: m1 has two recipients, one delivered
and one raising, so the command loop reports 1 + 1 = 2 and creates 2
records. -/
theorem dispatch_counts_and_records_witness :
    (process_mailing m1 false false 5 deliverMixed).success_count +
        (process_mailing m1 false false 5 deliverMixed).failed_count = 2 ∧
    (process_mailing m1 false false 5 deliverMixed).records.length = 2 :=
  ⟨(dispatch_counts_and_records m1 5 deliverMixed (by decide) (by decide)).1,
   (dispatch_counts_and_records m1 5 deliverMixed (by decide)
      (by decide)).2.2.2.1 (by decide)⟩

/-- C3: during a dispatch that reaches the delivery loop, the loop is a
total function of the recipient list — a raising delivery is caught,
recorded as a failed attempt with the exception's text, never propagated —
and every recipient is still handed to the transport exactly once: the
visited list is the whole recipient list, whatever the deliver function
does. -/
theorem per_recipient_failure_isolation (m : Mailing) (force : Bool)
    (now : Int) (deliver : Recipient → Except String Bool)
    (hs : force = true ∨
      get_dynamic_status now m.start_time m.end_time m.is_active = .started)
    (hne : m.recipients ≠ []) :
    (process_mailing m force false now deliver).visited = m.recipients ∧
    ∀ r ∈ m.recipients, ∀ e, deliver r = .error e →
      failedRec m r e ∈ (process_mailing m force false now deliver).records := by
  rw [process_mailing_eq_run m force now deliver hs hne]
  refine ⟨sendLoop_visited m deliver m.recipients, ?_⟩
  intro r hr e he
  rw [sendLoop_records]
  exact List.mem_filterMap.mpr ⟨r, hr, by simp [recordOf, he]⟩

/-- Witness for the C3 theorem: in the m1 dispatch where r1's delivery
raises, both recipients are visited and r1's failed record with the
exception text is created. -/
theorem per_recipient_failure_isolation_witness :
    (process_mailing m1 false false 5 deliverMixed).visited = m1.recipients ∧
    failedRec m1 r1 "SMTP connection refused" ∈
      (process_mailing m1 false false 5 deliverMixed).records :=
  ⟨(per_recipient_failure_isolation m1 false 5 deliverMixed
      (Or.inr (by decide)) (by decide)).1,
   (per_recipient_failure_isolation m1 false 5 deliverMixed
      (Or.inr (by decide)) (by decide)).2 r1 (by decide)
      "SMTP connection refused" rfl⟩

/-- C6 counterexample: an invocation whose --user-email matches no user
selects zero mailings, and the tool returns early after the warning: no
summary is printed (modelled as `none`), refuting "every invocation prints
a summary". -/
theorem summary_always_printed_counterexample :
    (handle [m0] [] none (some "ghost@example.com") false false 5
        deliverOk).1 = none :=
  rfl

/-- C6 (amended): the batch tool always completes, and prints the
{total, success, failed, skipped} summary exactly when the selection is
non-empty; an unknown --user-email yields the empty selection (reported as
an error, processing continues to the normal early return rather than
aborting), so such runs — like any zero-selection run — end with the
"no mailings" warning and no summary. -/
theorem batch_summary_behavior (db : List Mailing) (users : List String)
    (mailing_id : Option Nat) (user_email : Option String)
    (force dry_run : Bool) (now : Int)
    (deliver : Recipient → Except String Bool) :
    ((handle db users mailing_id user_email force dry_run now deliver).1.isSome ↔
      get_mailings_queryset db users mailing_id user_email force now ≠ []) ∧
    (∀ e, users.contains e = false →
      get_mailings_queryset db users mailing_id (some e) force now = []) := by
  constructor
  · by_cases h : get_mailings_queryset db users mailing_id user_email force now = []
    · simp [handle, h]
    · simp [handle, isEmpty_false_of_ne_nil h, h]
  · intro e he
    simp only [get_mailings_queryset, he, Bool.false_eq_true, if_false]

/-- Witness for the C6 amended theorem: with the single user
"a@example.com", the filter by the unknown "ghost@example.com" selects
nothing. -/
theorem batch_summary_behavior_witness :
    get_mailings_queryset [m0] ["a@example.com"] none
      (some "ghost@example.com") false 5 = [] :=
  (batch_summary_behavior [m0] ["a@example.com"] none
      (some "ghost@example.com") false false 5 deliverOk).2
    "ghost@example.com" rfl

/-- C7 counterexample: at now = 5 the stored mailing m3 (window 0..10, so
its start_time 0 is already in the past) cannot have is_active toggled:
save re-runs full_clean, and clean rejects the past start_time. -/
theorem past_start_validation_counterexample :
    toggle_mailing_active 5 m3 =
      .error "Дата начала не может быть в прошлом" :=
  rfl

/-- C7 (amended): the start-in-past restriction is validated on every save,
not only at creation: a save at a time not past start_time (with a
well-ordered window) succeeds, while any later save of a campaign whose
start_time has since passed — in particular toggling is_active — is
rejected with the past-start validation error; only the stored row, left
untouched, keeps its past start_time. -/
theorem past_start_validation_on_every_save (m : Mailing) (now : Int)
    (ho : m.start_time < m.end_time) :
    (now ≤ m.start_time → mailing_save now m = .ok m) ∧
    (m.start_time < now →
      toggle_mailing_active now m =
        .error "Дата начала не может быть в прошлом") := by
  have h1 : ¬m.start_time ≥ m.end_time := by omega
  constructor
  · intro h
    have h2 : ¬m.start_time < now := by omega
    simp [mailing_save, mailing_clean, h1, h2]
  · intro h
    simp [toggle_mailing_active, mailing_save, mailing_clean, h1, h]

/-- Witness for the C7 amended theorem: m3 saves fine at creation time
now = 0, and its toggle is rejected at now = 5. -/
theorem past_start_validation_on_every_save_witness :
    mailing_save 0 m3 = .ok m3 ∧
    toggle_mailing_active 5 m3 =
      .error "Дата начала не может быть в прошлом" :=
  ⟨(past_start_validation_on_every_save m3 0 (by decide)).1 (by decide),
   (past_start_validation_on_every_save m3 5 (by decide)).2 (by decide)⟩

/-- C8: in a non-dry processing of a mailing, the success flag is exactly
success_count > 0 and the failed flag exactly failed_count > 0, so a mixed
mailing increments both summary tallies; concretely, a batch run over one
mailing with one delivered and one raising recipient prints the summary
{total 1, success 1, failed 1, skipped 0}, whose success + failed + skipped
exceeds total. -/
theorem mixed_outcome_double_count :
    (∀ (m : Mailing) (force : Bool) (now : Int)
        (deliver : Recipient → Except String Bool),
      (process_mailing m force false now deliver).success =
        decide (0 < (process_mailing m force false now deliver).success_count) ∧
      (process_mailing m force false now deliver).failed =
        decide (0 < (process_mailing m force false now deliver).failed_count)) ∧
    (handle [m1] [] none none false false 5 deliverMixed).1 =
      some ⟨1, 1, 1, 0⟩ ∧
    1 + 1 + 0 > 1 := by
  refine ⟨?_, rfl, by omega⟩
  intro m force now deliver
  by_cases h1 : force = false ∧
      get_dynamic_status now m.start_time m.end_time m.is_active ≠ .started
  · have h : process_mailing m force false now deliver =
        ⟨false, false, true, 0, 0, [], []⟩ := by
      simp [process_mailing, h1]
    rw [h]
    exact ⟨rfl, rfl⟩
  · by_cases h2 : m.recipients = []
    · have h : process_mailing m force false now deliver =
          ⟨false, false, true, 0, 0, [], []⟩ := by
        simp [process_mailing, h1, h2]
      rw [h]
      exact ⟨rfl, rfl⟩
    · have hs : force = true ∨
          get_dynamic_status now m.start_time m.end_time m.is_active = .started := by
        by_cases hf : force = true
        · exact Or.inl hf
        · right
          have hf' : force = false := by
            cases force
            · rfl
            · exact absurd rfl hf
          by_contra hns
          exact h1 ⟨hf', hns⟩
      rw [process_mailing_eq_run m force now deliver hs h2]
      exact ⟨rfl, rfl⟩

/-- C9: with --mailing-id the selection filters by id only — no is_active
and no time-window condition — and with force the per-mailing status check
is bypassed, so any mailing with a nonempty recipient set (inactive or
outside its window included) is still dispatched: not skipped, every
recipient handed to the transport. -/
theorem mailing_id_selection_and_force (db : List Mailing)
    (users : List String) (i : Nat) (force : Bool) (now : Int) :
    (∀ m : Mailing, m ∈ get_mailings_queryset db users (some i) none force now ↔
      m ∈ db ∧ m.id = i) ∧
    (∀ (m : Mailing) (deliver : Recipient → Except String Bool),
      m.recipients ≠ [] →
      (process_mailing m true false now deliver).skipped = false ∧
      (process_mailing m true false now deliver).visited = m.recipients) := by
  constructor
  · intro m
    simp [get_mailings_queryset, List.mem_filter]
  · intro m deliver hne
    rw [process_mailing_eq_run m true now deliver (Or.inl rfl) hne]
    exact ⟨rfl, sendLoop_visited m deliver m.recipients⟩

/-- Witness for the C9 theorem: the inactive mailing m2 is selected by its
id 2, and with force its dispatch runs: not skipped, recipient visited. -/
theorem mailing_id_selection_and_force_witness :
    m2 ∈ get_mailings_queryset [m0, m2] [] (some 2) none true 5 ∧
    (process_mailing m2 true false 5 deliverOk).skipped = false ∧
    (process_mailing m2 true false 5 deliverOk).visited = m2.recipients :=
  ⟨(mailing_id_selection_and_force [m0, m2] [] 2 true 5).1 m2 |>.mpr
      ⟨by simp, rfl⟩,
   (mailing_id_selection_and_force [m0, m2] [] 2 true 5).2 m2 deliverOk
      (by decide)⟩

/-- C10: once the status check passes (by status or force) and the
recipient set is non-empty, a dry-run returns success with zero counts, no
attempt records and no recipient handed to the transport; and the skipped
classification is identical with and without dry-run, since the dry-run
short-circuit sits after the status and empty-recipient checks. -/
theorem dry_run_counts_as_success (m : Mailing) (force : Bool) (now : Int)
    (deliver : Recipient → Except String Bool) :
    ((force = true ∨
        get_dynamic_status now m.start_time m.end_time m.is_active = .started) →
      m.recipients ≠ [] →
      process_mailing m force true now deliver =
        ⟨true, false, false, 0, 0, [], []⟩) ∧
    (process_mailing m force true now deliver).skipped =
      (process_mailing m force false now deliver).skipped := by
  constructor
  · intro hs hne
    have h1 : ¬(force = false ∧
        get_dynamic_status now m.start_time m.end_time m.is_active ≠ .started) := by
      rcases hs with h | h <;> simp [h]
    have h2 : m.recipients.isEmpty = false := isEmpty_false_of_ne_nil hne
    simp [process_mailing, h1, h2]
  · by_cases h1 : force = false ∧
        get_dynamic_status now m.start_time m.end_time m.is_active ≠ .started
    · simp [process_mailing, h1]
    · by_cases h2 : m.recipients = []
      · simp [process_mailing, h1, h2]
      · simp [process_mailing, h1, isEmpty_false_of_ne_nil h2]

/-- Witness for the C10 theorem: the dry-run of m0 (started at now = 5, one
recipient) is counted as success with no records and no deliveries. -/
theorem dry_run_counts_as_success_witness :
    process_mailing m0 false true 5 deliverOk =
      ⟨true, false, false, 0, 0, [], []⟩ :=
  (dry_run_counts_as_success m0 false 5 deliverOk).1 (Or.inr (by decide))
    (by decide)
